/-
Verification of the sales-analysis pipeline (streamlitsql.py).

The program is a linear pandas pipeline:
  criar_conexao_e_popular  : builds an in-memory SQLite DB from a fetched script
  carregar_dados_no_pandas : runs the join query, returns a DataFrame (empty on error)
  tratar_dados             : fills nulls, recomputes valor_total, parses dates
  calcular_metricas        : aggregates the cleaned DataFrame into metrics

We embed DataFrames as lists of rows.  Nullable columns are `Option` valued;
numeric columns are `Rat` (pandas floats carry exact decimal values here).
Dates are a year/month/day triple; the raw data_venda column holds a string
which pd.to_datetime parses (modelled by `to_datetime`, failing on strings
that are not `Y-M-D` with numeric components, as pandas raises on unparseable
input).  Pandas `s.fillna v` maps a missing entry to `v` and keeps present
entries, i.e. `o.getD v` rewrapped in `some`.  Pandas `sum` skips nulls,
i.e. sums `o.getD 0`.  Pandas `groupby` drops rows whose key is null.
-/
import Mathlib

namespace Vendas

/-- A calendar date as produced by pd.to_datetime on a Y-M-D string. -/
structure Date where
  year : Nat
  month : Nat
  day : Nat
deriving DecidableEq, Repr

/-- Ordering on dates (lexicographic on year, month, day), as a Bool
comparator for sorting. -/
def Date.le (a b : Date) : Bool :=
  decide (a.year < b.year) ||
    (decide (a.year = b.year) &&
      (decide (a.month < b.month) ||
        (decide (a.month = b.month) && decide (a.day ≤ b.day))))

/-- The data_venda column: a raw string before cleaning, a parsed datetime
after `pd.to_datetime`. -/
inductive DateCol where
  | raw : String → DateCol
  | dt : Date → DateCol
deriving DecidableEq, Repr

/-- Split a character list on the dash separator. -/
def splitOnDash : List Char → List (List Char)
  | [] => [[]]
  | c :: cs =>
    match splitOnDash cs, decide (c = '-') with
    | rest, true => [] :: rest
    | [], false => [[c]]
    | g :: gs, false => (c :: g) :: gs

/-- Decimal digits accumulated into a Nat; fails on a non-digit. -/
def digitsAux : List Char → Nat → Option Nat
  | [], acc => some acc
  | c :: cs, acc => if c.isDigit then digitsAux cs (10 * acc + (c.toNat - 48)) else none

/-- Parse a nonempty all-digit character list as a Nat. -/
def digits? (cs : List Char) : Option Nat :=
  match cs with
  | [] => none
  | _ => digitsAux cs 0

/-- Parse a Y-M-D date string, as pd.to_datetime does on this data. -/
def parseDate (s : String) : Option Date :=
  match splitOnDash s.toList with
  | [y, m, d] =>
    match digits? y, digits? m, digits? d with
    | some yn, some mn, some dn => some ⟨yn, mn, dn⟩
    | _, _, _ => none
  | _ => none

/-- pd.to_datetime on one entry of the data_venda column: parses a raw
string (failing, as pandas raises, when it is unparseable) and leaves an
already-converted datetime unchanged. -/
def to_datetime : DateCol → Option DateCol
  | .raw s => (parseDate s).map DateCol.dt
  | .dt d => some (.dt d)

/-- One row of the joined dataset produced by query_join: sales left-joined
to products, so the product columns (nome_produto, categoria,
preco_unitario) and the computed valor_total may be null, as may desconto. -/
structure Row where
  id_venda : Int
  data_venda : DateCol
  nome_produto : Option String
  categoria : Option String
  quantidade : Rat
  preco_unitario : Option Rat
  desconto : Option Rat
  valor_total : Option Rat
deriving DecidableEq, Repr

/-! ### tratar_dados (Etapa 4), column by column as in the source -/

/-- Step 1: desconto.fillna(0.0). -/
def fillDesconto (df : List Row) : List Row :=
  df.map fun r => { r with desconto := some (r.desconto.getD 0) }

/-- Step 2: preco_unitario.fillna(0.0). -/
def fillPreco (df : List Row) : List Row :=
  df.map fun r => { r with preco_unitario := some (r.preco_unitario.getD 0) }

/-- Step 3: categoria.fillna(Outros). -/
def fillCategoria (df : List Row) : List Row :=
  df.map fun r => { r with categoria := some (r.categoria.getD "Outros") }

/-- Step 4: nome_produto.fillna(Produto Desconhecido). -/
def fillNome (df : List Row) : List Row :=
  df.map fun r => { r with nome_produto := some (r.nome_produto.getD "Produto Desconhecido") }

/-- Step 5: valor_total = quantidade * (preco_unitario - desconto).
Element-wise pandas arithmetic; nulls inside the operands would propagate,
and pandas represents the NaN-free filled columns exactly as their values,
so the entries read through getD 0 (they are all some at the call site). -/
def recomputeTotal (df : List Row) : List Row :=
  df.map fun r =>
    { r with valor_total := some (r.quantidade * (r.preco_unitario.getD 0 - r.desconto.getD 0)) }

/-- Step 6: data_venda = pd.to_datetime(data_venda); fails (pandas raises)
if any entry fails to parse. -/
def convertData : List Row → Option (List Row)
  | [] => some []
  | r :: rs =>
    match to_datetime r.data_venda, convertData rs with
    | some d, some rest => some ({ r with data_venda := d } :: rest)
    | _, _ => none

/-- tratar_dados: the six cleaning steps in source order on a copy of the
input.  Returns none when pd.to_datetime raises. -/
def tratar_dados (df : List Row) : Option (List Row) :=
  convertData (recomputeTotal (fillNome (fillCategoria (fillPreco (fillDesconto df)))))

/-! ### calcular_metricas (Etapa 5) -/

/-- Group keys of a pandas groupby: the distinct non-null keys, in first
occurrence order (our aggregations then sort, so key order is irrelevant
to the observable results). -/
def groupKeys {α κ : Type} [DecidableEq κ] (k : α → Option κ) (l : List α) : List κ :=
  (l.filterMap k).dedup

/-- groupby(k)[v].sum(): one (key, sum of v over the rows with that key)
pair per distinct non-null key; rows with a null key are dropped. -/
def groupSum {α κ : Type} [DecidableEq κ] (k : α → Option κ) (v : α → Rat) (l : List α) :
    List (κ × Rat) :=
  (groupKeys k l).map fun key =>
    (key, ((l.filter fun a => decide (k a = some key)).map v).sum)

/-- The value of one row in the valor_total column as summed by pandas
(nulls skipped, i.e. counted as 0). -/
def vTotal (r : Row) : Rat := r.valor_total.getD 0

/-- The date key used by groupby(df.data_venda.dt.date): the date portion of
a converted entry; a raw (unconverted) entry has no date attribute and such
rows never occur in the cleaned input. -/
def dateKey (r : Row) : Option Date :=
  match r.data_venda with
  | .dt d => some d
  | .raw _ => none

/-- total_faturamento = df.valor_total.sum(). -/
def total_faturamento (df : List Row) : Rat :=
  (df.map vTotal).sum

/-- total_produtos_vendidos = df.quantidade.sum(). -/
def total_produtos_vendidos (df : List Row) : Rat :=
  (df.map fun r => r.quantidade).sum

/-- faturamento_por_categoria: groupby categoria, sum valor_total, sort
descending by valor_total. -/
def faturamento_por_categoria (df : List Row) : List (String × Rat) :=
  (groupSum (fun r => r.categoria) vTotal df).mergeSort fun a b => decide (b.2 ≤ a.2)

/-- produtos_mais_vendidos: groupby nome_produto, sum quantidade, sort
descending, take the top 5. -/
def produtos_mais_vendidos (df : List Row) : List (String × Rat) :=
  ((groupSum (fun r => r.nome_produto) (fun r => r.quantidade) df).mergeSort
    fun a b => decide (b.2 ≤ a.2)).take 5

/-- faturamento_por_dia: groupby the calendar date, sum valor_total, sort
ascending by date. -/
def faturamento_por_dia (df : List Row) : List (Date × Rat) :=
  (groupSum dateKey vTotal df).mergeSort fun a b => Date.le a.1 b.1

/-- dias_maior_venda: faturamento_por_dia re-sorted descending by
valor_total, take the top 5. -/
def dias_maior_venda (df : List Row) : List (Date × Rat) :=
  ((faturamento_por_dia df).mergeSort fun a b => decide (b.2 ≤ a.2)).take 5

/-- The metrics dictionary returned by calcular_metricas. -/
structure Metricas where
  total_faturamento : Rat
  total_produtos_vendidos : Rat
  faturamento_por_categoria : List (String × Rat)
  produtos_mais_vendidos : List (String × Rat)
  dias_maior_venda : List (Date × Rat)
  faturamento_por_dia : List (Date × Rat)
deriving DecidableEq, Repr

/-- calcular_metricas: the six aggregates of Etapa 5. -/
def calcular_metricas (df : List Row) : Metricas where
  total_faturamento := total_faturamento df
  total_produtos_vendidos := total_produtos_vendidos df
  faturamento_por_categoria := faturamento_por_categoria df
  produtos_mais_vendidos := produtos_mais_vendidos df
  dias_maior_venda := dias_maior_venda df
  faturamento_por_dia := faturamento_por_dia df

/-! ### criar_conexao_e_popular and carregar_dados_no_pandas

The SQLite engine and pandas read_sql_query are external; we model them as
function parameters returning either a result or an error message, and embed
the control flow of the two wrappers.  st.error / st.warning calls are
collected as a list of reported messages. -/

/-- An opaque live SQLite connection handle. -/
structure Conn where
  id : Nat
deriving DecidableEq, Repr

/-- criar_conexao_e_popular: absent script gives an absent connection with
nothing reported; otherwise executescript is attempted (modelled by exec),
and on sqlite3.Error the two st.error diagnostics (the error, and the first
100 characters of the script) and the st.warning hint are reported and the
connection is absent. -/
def criar_conexao_e_popular (exec : String → Except String Conn) :
    Option String → Option Conn × List String
  | none => (none, [])
  | some s =>
    match exec s with
    | .ok c => (some c, [])
    | .error e =>
      (none,
        ["Erro ao executar o script SQL no banco: " ++ e,
         "DEBUG: O script baixado começou com: " ++ s.take 100 ++ "...",
         "Se o erro for near syntax error, o download falhou e recebemos um HTML."])

/-- carregar_dados_no_pandas: pd.read_sql_query (modelled by run) on success
returns its DataFrame; on any exception the error is reported and an empty
DataFrame is returned. -/
def carregar_dados_no_pandas (run : Conn → String → Except String (List Row))
    (conn : Conn) (query : String) : List Row × List String :=
  match run conn query with
  | .ok df => (df, [])
  | .error e => ([], ["Erro ao carregar dados no Pandas: " ++ e])

/-! ### Mutation model for tratar_dados

Python DataFrames are heap objects; `df_limpo = df.copy()` allocates a fresh
one and every subsequent column assignment in tratar_dados targets df_limpo.
We model the heap as a list of DataFrames indexed by references: copy
appends a fresh entry, each column assignment overwrites the copy's slot. -/

/-- The DataFrame at reference i of the store (default empty, never hit on
valid references). -/
def getDf (s : List (List Row)) (i : Nat) : List Row :=
  (s.get? i).getD []

/-- tratar_dados acting on the heap: df.copy() allocates slot r2, the five
in-place column assignments rewrite slot r2 in sequence, the to_datetime
assignment may fail, and the reference to the copy is returned. -/
def tratar_dados_st (s : List (List Row)) (ref : Nat) :
    Option (List (List Row) × Nat) :=
  match s.get? ref with
  | none => none
  | some df =>
    let r2 := s.length
    let s1 := s ++ [df]
    let s2 := s1.set r2 (fillDesconto (getDf s1 r2))
    let s3 := s2.set r2 (fillPreco (getDf s2 r2))
    let s4 := s3.set r2 (fillCategoria (getDf s3 r2))
    let s5 := s4.set r2 (fillNome (getDf s4 r2))
    let s6 := s5.set r2 (recomputeTotal (getDf s5 r2))
    match convertData (getDf s6 r2) with
    | some dfd => some (s6.set r2 dfd, r2)
    | none => none

/-! ### Row-wise characterization of tratar_dados -/

/-- The composite effect of the five column-wise steps 1-5 on one row. -/
def cleanCols (r : Row) : Row :=
  { r with
    desconto := some (r.desconto.getD 0)
    preco_unitario := some (r.preco_unitario.getD 0)
    categoria := some (r.categoria.getD "Outros")
    nome_produto := some (r.nome_produto.getD "Produto Desconhecido")
    valor_total := some (r.quantidade * (r.preco_unitario.getD 0 - r.desconto.getD 0)) }

/-- The effect of all six cleaning steps on one row (fails if the date
fails to parse). -/
def tratarRow (r : Row) : Option Row :=
  (to_datetime r.data_venda).map fun d => { cleanCols r with data_venda := d }

theorem tratar_dados_eq_map :
    ∀ df : List Row, tratar_dados df = convertData (df.map cleanCols) := by
  intro df
  simp only [tratar_dados, fillDesconto, fillPreco, fillCategoria, fillNome,
    recomputeTotal, List.map_map]
  rfl

theorem tratar_dados_nil : tratar_dados [] = some [] := rfl

theorem tratar_dados_cons (r : Row) (rs : List Row) :
    tratar_dados (r :: rs) =
      match tratarRow r, tratar_dados rs with
      | some a, some l => some (a :: l)
      | _, _ => none := by
  rw [tratar_dados_eq_map, List.map_cons, convertData, ← tratar_dados_eq_map, tratarRow]
  have hdv : (cleanCols r).data_venda = r.data_venda := rfl
  rw [hdv]
  cases to_datetime r.data_venda <;> cases tratar_dados rs <;> simp [Option.map]

theorem tratar_dados_forall2 {df dfc : List Row} (h : tratar_dados df = some dfc) :
    List.Forall₂ (fun r a => tratarRow r = some a) df dfc := by
  induction df generalizing dfc with
  | nil =>
    rw [tratar_dados_nil] at h
    cases h
    exact List.Forall₂.nil
  | cons r rs ih =>
    rw [tratar_dados_cons] at h
    revert h
    cases hr : tratarRow r <;> cases hrs : tratar_dados rs <;> intro h <;> simp at h
    cases h
    exact List.Forall₂.cons hr (ih hrs)

theorem to_datetime_some {x y : DateCol} (h : to_datetime x = some y) :
    ∃ d, y = DateCol.dt d := by
  cases x with
  | raw s =>
    simp only [to_datetime, Option.map_eq_some'] at h
    obtain ⟨d, _, hd⟩ := h
    exact ⟨d, hd.symm⟩
  | dt d =>
    simp only [to_datetime, Option.some_inj] at h
    exact ⟨d, h.symm⟩

/-- Field values of a cleaned row in terms of the raw row. -/
theorem tratarRow_fields {r a : Row} (h : tratarRow r = some a) :
    a.desconto = some (r.desconto.getD 0) ∧
    a.preco_unitario = some (r.preco_unitario.getD 0) ∧
    a.categoria = some (r.categoria.getD "Outros") ∧
    a.nome_produto = some (r.nome_produto.getD "Produto Desconhecido") ∧
    a.valor_total = some (r.quantidade * (r.preco_unitario.getD 0 - r.desconto.getD 0)) ∧
    a.quantidade = r.quantidade ∧
    a.id_venda = r.id_venda ∧
    ∃ d, a.data_venda = DateCol.dt d := by
  simp only [tratarRow, Option.map_eq_some'] at h
  obtain ⟨d, hd, ha⟩ := h
  obtain ⟨d0, hd0⟩ := to_datetime_some hd
  subst ha
  subst hd0
  exact ⟨rfl, rfl, rfl, rfl, rfl, rfl, rfl, d0, rfl⟩

/-- A cleaned row is a fixed point of the row-wise cleaning. -/
theorem tratarRow_idem {r a : Row} (h : tratarRow r = some a) :
    tratarRow a = some a := by
  simp only [tratarRow, Option.map_eq_some'] at h
  obtain ⟨d, hd, ha⟩ := h
  obtain ⟨d0, hd0⟩ := to_datetime_some hd
  subst ha
  subst hd0
  simp only [tratarRow, to_datetime, Option.map_some']
  rfl

theorem forall2_mem_right {α β : Type} {R : α → β → Prop} {l₁ : List α} {l₂ : List β}
    (h : List.Forall₂ R l₁ l₂) : ∀ b ∈ l₂, ∃ a ∈ l₁, R a b := by
  induction h with
  | nil => intro b hb; cases hb
  | cons hr _ ih =>
    intro b hb
    cases hb with
    | head => exact ⟨_, List.mem_cons_self _ _, hr⟩
    | tail _ hb =>
      obtain ⟨a, ha, hab⟩ := ih b hb
      exact ⟨a, List.mem_cons_of_mem _ ha, hab⟩

/-! ### Sum lemmas for groupby -/

theorem sum_filter_split {α : Type} (p : α → Bool) (v : α → Rat) (l : List α) :
    ((l.filter p).map v).sum + ((l.filter fun a => !(p a)).map v).sum = (l.map v).sum := by
  induction l with
  | nil => simp
  | cons a t ih =>
    by_cases h : p a = true
    · rw [List.filter_cons_of_pos h, List.filter_cons_of_neg (by simp [h])]
      simp only [List.map_cons, List.sum_cons]
      rw [add_assoc, ih]
    · have h2 : p a = false := by simpa using h
      rw [List.filter_cons_of_neg (by simp [h2]), List.filter_cons_of_pos (by simp [h2])]
      simp only [List.map_cons, List.sum_cons]
      rw [add_left_comm, ih]

theorem sum_over_groups {α κ : Type} [DecidableEq κ] (k : α → Option κ) (v : α → Rat) :
    ∀ (keys : List κ) (l : List α), keys.Nodup →
      (∀ a ∈ l, ∃ key ∈ keys, k a = some key) →
      (keys.map fun key => ((l.filter fun a => decide (k a = some key)).map v).sum).sum
        = (l.map v).sum := by
  intro keys
  induction keys with
  | nil =>
    intro l _ hcov
    cases l with
    | nil => simp
    | cons a t =>
      obtain ⟨key, hk, _⟩ := hcov a (List.mem_cons_self a t)
      cases hk
  | cons key rest ih =>
    intro l hnd hcov
    have hkey : key ∉ rest := (List.nodup_cons.mp hnd).1
    have hrest : rest.Nodup := (List.nodup_cons.mp hnd).2
    set l2 := l.filter fun a => !(decide (k a = some key)) with hl2
    have hcov2 : ∀ a ∈ l2, ∃ key2 ∈ rest, k a = some key2 := by
      intro a ha
      rw [hl2, List.mem_filter] at ha
      obtain ⟨key2, hk2, hka⟩ := hcov a ha.1
      have hne : key2 ≠ key := by
        intro hEq
        subst hEq
        rw [hka] at ha
        simp at ha
      cases hk2 with
      | head => exact absurd rfl hne
      | tail _ h2 => exact ⟨key2, h2, hka⟩
    have hfilters : ∀ key2 ∈ rest,
        l2.filter (fun a => decide (k a = some key2)) =
          l.filter (fun a => decide (k a = some key2)) := by
      intro key2 h2
      rw [hl2, List.filter_filter]
      apply List.filter_congr
      intro a _
      by_cases hka : k a = some key2
      · have hne : ¬ key2 = key := fun hEq => hkey (hEq ▸ h2)
        simp [hka, hne]
      · simp [hka]
    have hmaps :
        (rest.map fun key2 => ((l.filter fun a => decide (k a = some key2)).map v).sum) =
          rest.map fun key2 => ((l2.filter fun a => decide (k a = some key2)).map v).sum := by
      apply List.map_congr_left
      intro key2 h2
      rw [hfilters key2 h2]
    rw [List.map_cons, List.sum_cons, hmaps, ih l2 hrest hcov2, hl2]
    exact sum_filter_split _ v l

/-- The sum of the per-group sums of a groupSum equals the total sum of v,
provided every row has a non-null key. -/
theorem groupSum_snd_sum {α κ : Type} [DecidableEq κ] (k : α → Option κ) (v : α → Rat)
    (l : List α) (hcov : ∀ a ∈ l, (k a).isSome) :
    ((groupSum k v l).map Prod.snd).sum = (l.map v).sum := by
  simp only [groupSum, List.map_map]
  have : (Prod.snd ∘ fun key =>
      (key, ((l.filter fun a => decide (k a = some key)).map v).sum)) =
      fun key => ((l.filter fun a => decide (k a = some key)).map v).sum := rfl
  rw [this]
  apply sum_over_groups k v (groupKeys k l) l (List.nodup_dedup _)
  intro a ha
  obtain ⟨key, hk⟩ := Option.isSome_iff_exists.mp (hcov a ha)
  refine ⟨key, ?_, hk⟩
  exact List.mem_dedup.mpr (List.mem_filterMap.mpr ⟨a, ha, hk⟩)

/-- The key column of a groupSum is exactly the distinct non-null keys. -/
theorem groupSum_fst {α κ : Type} [DecidableEq κ] (k : α → Option κ) (v : α → Rat)
    (l : List α) : (groupSum k v l).map Prod.fst = groupKeys k l := by
  simp only [groupSum, List.map_map]
  exact List.map_id _

/-! ### Comparator facts for the sorts -/

theorem valueDesc_trans {κ : Type} (a b c : κ × Rat)
    (hab : decide (b.2 ≤ a.2) = true) (hbc : decide (c.2 ≤ b.2) = true) :
    decide (c.2 ≤ a.2) = true := by
  simp only [decide_eq_true_eq] at hab hbc ⊢
  exact le_trans hbc hab

theorem valueDesc_total {κ : Type} (a b : κ × Rat) :
    (decide (b.2 ≤ a.2) || decide (a.2 ≤ b.2)) = true := by
  rcases le_total a.2 b.2 with h | h <;> simp [h]

theorem dateLe_trans (a b c : Date) (hab : Date.le a b = true) (hbc : Date.le b c = true) :
    Date.le a c = true := by
  simp only [Date.le, Bool.or_eq_true, Bool.and_eq_true, decide_eq_true_eq] at hab hbc ⊢
  omega

theorem dateLe_total (a b : Date) : (Date.le a b || Date.le b a) = true := by
  simp only [Date.le, Bool.or_eq_true, Bool.and_eq_true, decide_eq_true_eq]
  omega

theorem dateFst_trans (a b c : Date × Rat)
    (hab : Date.le a.1 b.1 = true) (hbc : Date.le b.1 c.1 = true) :
    Date.le a.1 c.1 = true := dateLe_trans _ _ _ hab hbc

theorem dateFst_total (a b : Date × Rat) :
    (Date.le a.1 b.1 || Date.le b.1 a.1) = true := dateLe_total _ _

/-! ### Concrete rows for evaluation -/

/-- A joined row with a null discount (quantity 2, unit price 10). -/
def row1 : Row where
  id_venda := 1
  data_venda := .raw "2025-10-07"
  nome_produto := some "Notebook"
  categoria := some "Informatica"
  quantidade := 2
  preco_unitario := some 10
  desconto := none
  valor_total := some 20

/-- The cleaned form of row1 (valor_total kept in the unreduced shape the
cleaning step produces, so that the cleaning evaluates by rfl). -/
def cleaned1 : Row where
  id_venda := 1
  data_venda := .dt ⟨2025, 10, 7⟩
  nome_produto := some "Notebook"
  categoria := some "Informatica"
  quantidade := 2
  preco_unitario := some 10
  desconto := some 0
  valor_total := some (2 * (10 - 0))

/-- A sale of a non-existent product (all product columns null), with a
null discount. -/
def rowN : Row where
  id_venda := 2
  data_venda := .raw "2025-10-01"
  nome_produto := none
  categoria := none
  quantidade := 3
  preco_unitario := none
  desconto := none
  valor_total := none

/-- The cleaned form of rowN. -/
def cleanedN : Row where
  id_venda := 2
  data_venda := .dt ⟨2025, 10, 1⟩
  nome_produto := some "Produto Desconhecido"
  categoria := some "Outros"
  quantidade := 3
  preco_unitario := some 0
  desconto := some 0
  valor_total := some (3 * (0 - 0))

/-- A sale of a non-existent product (all product columns null) that
carries a non-null discount of 5. -/
def rowG : Row where
  id_venda := 3
  data_venda := .raw "2025-10-02"
  nome_produto := none
  categoria := none
  quantidade := 1
  preco_unitario := none
  desconto := some 5
  valor_total := none

/-- The cleaned form of rowG: its valor_total is 1 * (0 - 5) = -5. -/
def cleanedG : Row where
  id_venda := 3
  data_venda := .dt ⟨2025, 10, 2⟩
  nome_produto := some "Produto Desconhecido"
  categoria := some "Outros"
  quantidade := 1
  preco_unitario := some 0
  desconto := some 5
  valor_total := some (1 * (0 - 5))

/-- A small cleaned dataset (a fixed point of tratar_dados) with two
categories and two dates. -/
def dfW : List Row := [cleaned1, cleanedG]

theorem tratar_row1 : tratar_dados [row1] = some [cleaned1] := rfl

theorem tratar_rowN : tratar_dados [rowN] = some [cleanedN] := rfl

theorem tratar_rowG : tratar_dados [rowG] = some [cleanedG] := rfl

theorem tratar_dfW : tratar_dados dfW = some dfW := rfl

/-! ### The claims -/

/-- C1: for every input dataset, tratar_dados sets valor_total of every row
to quantidade × (preco_unitario − desconto) computed after null
replacement (nulls read as their fillna defaults 0), and sets desconto to
its null-replaced value. -/
theorem C1_total_recomputed (df dfc : List Row) (h : tratar_dados df = some dfc) :
    List.Forall₂ (fun r a =>
      a.valor_total = some (r.quantidade * (r.preco_unitario.getD 0 - r.desconto.getD 0)) ∧
      a.desconto = some (r.desconto.getD 0)) df dfc := by
  apply (tratar_dados_forall2 h).imp
  intro r a hr
  obtain ⟨hd, _, _, _, hv, _⟩ := tratarRow_fields hr
  exact ⟨hv, hd⟩

/-- C1 witness: the spec scenario qty=2, price=10, discount=null cleans to
discount 0 and total 2 × (10 − 0) = 20. -/
theorem C1_witness : cleaned1.desconto = some 0 ∧ cleaned1.valor_total = some 20 := by
  have h := C1_total_recomputed [row1] [cleaned1] tratar_row1
  cases h with
  | cons hh _ =>
    refine ⟨hh.2.trans rfl, hh.1.trans ?_⟩
    norm_num [row1]

/-- C2: after tratar_dados no nulls remain in desconto, preco_unitario,
categoria, nome_produto, and a null entry becomes 0, 0, Outros, Produto
Desconhecido respectively. -/
theorem C2_no_nulls (df dfc : List Row) (h : tratar_dados df = some dfc) :
    (∀ a ∈ dfc, a.desconto.isSome ∧ a.preco_unitario.isSome ∧
      a.categoria.isSome ∧ a.nome_produto.isSome) ∧
    List.Forall₂ (fun r a =>
      (r.desconto = none → a.desconto = some 0) ∧
      (r.preco_unitario = none → a.preco_unitario = some 0) ∧
      (r.categoria = none → a.categoria = some "Outros") ∧
      (r.nome_produto = none → a.nome_produto = some "Produto Desconhecido")) df dfc := by
  have hf := tratar_dados_forall2 h
  constructor
  · intro a ha
    obtain ⟨r, _, hr⟩ := forall2_mem_right hf a ha
    obtain ⟨hd, hp, hc, hn, _⟩ := tratarRow_fields hr
    rw [hd, hp, hc, hn]
    exact ⟨rfl, rfl, rfl, rfl⟩
  · apply hf.imp
    intro r a hr
    obtain ⟨hd, hp, hc, hn, _⟩ := tratarRow_fields hr
    refine ⟨fun h0 => ?_, fun h0 => ?_, fun h0 => ?_, fun h0 => ?_⟩
    · rw [hd, h0]; rfl
    · rw [hp, h0]; rfl
    · rw [hc, h0]; rfl
    · rw [hn, h0]; rfl

/-- C2 witness: a row with all four columns null cleans to the four
defaults. -/
theorem C2_witness :
    cleanedN.desconto = some 0 ∧ cleanedN.preco_unitario = some 0 ∧
    cleanedN.categoria = some "Outros" ∧
    cleanedN.nome_produto = some "Produto Desconhecido" := by
  have h := (C2_no_nulls [rowN] [cleanedN] tratar_rowN).2
  cases h with
  | cons hh _ => exact ⟨hh.1 rfl, hh.2.1 rfl, hh.2.2.1 rfl, hh.2.2.2 rfl⟩

/-- C3 counterexample: a sale of a non-existent product with quantity 1 and
discount 5 cleans to valor_total −5, so it contributes −5 ≠ 0 to total
revenue, contradicting the claim that such a row always contributes 0. -/
theorem C3_counterexample :
    rowG.nome_produto = none ∧ rowG.categoria = none ∧ rowG.preco_unitario = none ∧
    tratar_dados [rowG] = some [cleanedG] ∧
    total_faturamento [cleanedG] = -5 ∧ total_faturamento [cleanedG] ≠ 0 := by
  have hv : total_faturamento [cleanedG] = -5 := by
    simp only [total_faturamento, vTotal, cleanedG, List.map_cons, List.map_nil,
      List.sum_cons, List.sum_nil, Option.getD_some]
    norm_num
  refine ⟨rfl, rfl, rfl, tratar_rowG, hv, by rw [hv]; norm_num⟩

/-- C3 amended: a sale row whose product columns are null after the left
join cleans to nome Produto Desconhecido, categoria Outros, preco 0, and
valor_total = quantidade × (0 − desconto with nulls read as 0); it
contributes 0 to total revenue only when its discount is null or 0, and
−quantidade × desconto in general. -/
theorem C3_ghost_rows (df dfc : List Row) (h : tratar_dados df = some dfc) :
    List.Forall₂ (fun r a =>
      r.nome_produto = none → r.categoria = none → r.preco_unitario = none →
        a.nome_produto = some "Produto Desconhecido" ∧
        a.categoria = some "Outros" ∧
        a.preco_unitario = some 0 ∧
        a.valor_total = some (r.quantidade * (0 - r.desconto.getD 0)) ∧
        (r.desconto.getD 0 = 0 → a.valor_total = some 0)) df dfc := by
  apply (tratar_dados_forall2 h).imp
  intro r a hr hn hc hp
  obtain ⟨hd, hpu, hca, hno, hv, _⟩ := tratarRow_fields hr
  rw [hp] at hpu hv
  refine ⟨hno.trans (by rw [hn]; rfl), hca.trans (by rw [hc]; rfl), hpu, hv, fun h0 => ?_⟩
  rw [hv, h0]
  norm_num

/-- C3 witness for the amended claim: the all-null row with quantity 3 and
null discount contributes 0. -/
theorem C3_witness :
    cleanedN.nome_produto = some "Produto Desconhecido" ∧
    cleanedN.categoria = some "Outros" ∧
    cleanedN.preco_unitario = some 0 ∧
    cleanedN.valor_total = some 0 := by
  have h := C3_ghost_rows [rowN] [cleanedN] tratar_rowN
  cases h with
  | cons hh _ =>
    obtain ⟨h1, h2, h3, _, h5⟩ := hh rfl rfl rfl
    exact ⟨h1, h2, h3, h5 rfl⟩

theorem length_take5 {α : Type} (l : List α) : (l.take 5).length ≤ 5 := by
  rw [List.length_take]
  omega

theorem pairwise_desc_take5 {κ : Type} (l : List (κ × Rat)) :
    ((l.mergeSort fun a b => decide (b.2 ≤ a.2)).take 5).Pairwise
      (fun a b => b.2 ≤ a.2) := by
  have hs := List.sorted_mergeSort valueDesc_trans valueDesc_total l
  have ht := List.Pairwise.sublist (List.take_sublist 5 _) hs
  exact ht.imp fun hab => of_decide_eq_true hab

theorem dateKey_eq_some {r : Row} {d : Date} :
    dateKey r = some d ↔ r.data_venda = DateCol.dt d := by
  cases hr : r.data_venda with
  | raw s => simp [dateKey, hr]
  | dt d2 => simp [dateKey, hr]

/-- C4: the per-category revenue rows of the Metrics Calculator sum to its
total revenue on any cleaned dataset: the categories partition the
revenue. -/
theorem C4_categoria_partition (df dfc : List Row) (h : tratar_dados df = some dfc) :
    ((faturamento_por_categoria dfc).map Prod.snd).sum = total_faturamento dfc := by
  have hperm := (List.mergeSort_perm (groupSum (fun r : Row => r.categoria) vTotal dfc)
    (fun a b => decide (b.2 ≤ a.2))).map Prod.snd
  simp only [faturamento_por_categoria]
  rw [hperm.sum_eq]
  apply groupSum_snd_sum
  intro a ha
  obtain ⟨r, _, hr⟩ := forall2_mem_right (tratar_dados_forall2 h) a ha
  obtain ⟨_, _, hc, _⟩ := tratarRow_fields hr
  rw [hc]
  rfl

/-- C4 witness: the partition property evaluated on a concrete cleaned
two-category dataset. -/
theorem C4_witness :
    ((faturamento_por_categoria dfW).map Prod.snd).sum = total_faturamento dfW :=
  C4_categoria_partition dfW dfW rfl

/-- C5: tratar_dados is idempotent: applying the Cleaner to an
already-cleaned dataset returns it unchanged, so cleaning twice equals
cleaning once. -/
theorem C5_cleaner_idempotent (df : List Row) :
    (tratar_dados df).bind tratar_dados = tratar_dados df := by
  cases hd : tratar_dados df with
  | none => rfl
  | some dfc =>
    show tratar_dados dfc = some dfc
    have hf := tratar_dados_forall2 hd
    clear hd
    induction hf with
    | nil => rfl
    | cons hr hrs ih =>
      simp [tratar_dados_cons, tratarRow_idem hr, ih]

/-- C6: the top-products and top-days tables have at most 5 rows and are
sorted descending by their ranking column. -/
theorem C6_top5 (df dfc : List Row) (_h : tratar_dados df = some dfc) :
    (produtos_mais_vendidos dfc).length ≤ 5 ∧
    (produtos_mais_vendidos dfc).Pairwise (fun a b => b.2 ≤ a.2) ∧
    (dias_maior_venda dfc).length ≤ 5 ∧
    (dias_maior_venda dfc).Pairwise (fun a b => b.2 ≤ a.2) :=
  ⟨length_take5 _, pairwise_desc_take5 _, length_take5 _, pairwise_desc_take5 _⟩

/-- C6 witness: the bounds evaluated on a concrete cleaned dataset. -/
theorem C6_witness :
    (produtos_mais_vendidos dfW).length ≤ 5 ∧
    (produtos_mais_vendidos dfW).Pairwise (fun a b => b.2 ≤ a.2) ∧
    (dias_maior_venda dfW).length ≤ 5 ∧
    (dias_maior_venda dfW).Pairwise (fun a b => b.2 ≤ a.2) :=
  C6_top5 dfW dfW rfl

/-- C7: the daily revenue series is sorted ascending by date and its date
column contains exactly the distinct dates of the cleaned dataset, each
exactly once. -/
theorem C7_daily_series (df dfc : List Row) (_h : tratar_dados df = some dfc) :
    ((faturamento_por_dia dfc).map Prod.fst).Nodup ∧
    ((faturamento_por_dia dfc).map Prod.fst).Pairwise (fun a b => Date.le a b = true) ∧
    ∀ d : Date, d ∈ (faturamento_por_dia dfc).map Prod.fst ↔
      DateCol.dt d ∈ dfc.map fun r => r.data_venda := by
  have hperm := (List.mergeSort_perm (groupSum dateKey vTotal dfc)
    (fun a b : Date × Rat => Date.le a.1 b.1)).map Prod.fst
  refine ⟨?_, ?_, ?_⟩
  · simp only [faturamento_por_dia]
    refine hperm.nodup_iff.mpr ?_
    rw [groupSum_fst]
    exact List.nodup_dedup _
  · simp only [faturamento_por_dia]
    exact List.pairwise_map.mpr (List.sorted_mergeSort dateFst_trans dateFst_total _)
  · intro d
    simp only [faturamento_por_dia]
    rw [hperm.mem_iff, groupSum_fst, groupKeys, List.mem_dedup, List.mem_filterMap]
    constructor
    · rintro ⟨r, hrm, hrd⟩
      exact List.mem_map.mpr ⟨r, hrm, dateKey_eq_some.mp hrd⟩
    · intro hm
      obtain ⟨r, hrm, hrd⟩ := List.mem_map.mp hm
      exact ⟨r, hrm, dateKey_eq_some.mpr hrd⟩

/-- C7 witness: the daily series properties evaluated on a concrete cleaned
dataset with two dates. -/
theorem C7_witness :
    ((faturamento_por_dia dfW).map Prod.fst).Nodup ∧
    ((faturamento_por_dia dfW).map Prod.fst).Pairwise (fun a b => Date.le a b = true) ∧
    ∀ d : Date, d ∈ (faturamento_por_dia dfW).map Prod.fst ↔
      DateCol.dt d ∈ dfW.map fun r => r.data_venda :=
  C7_daily_series dfW dfW rfl

/-- C8: the Dataset Builder returns an absent connection (reporting
nothing) when the script is absent, whatever the database engine does; and
when executing the script fails it returns an absent connection and
reports the error together with the first 100 characters of the script. -/
theorem C8_builder (exec : String → Except String Conn) :
    criar_conexao_e_popular exec none = (none, []) ∧
    ∀ s e, exec s = .error e →
      (criar_conexao_e_popular exec (some s)).1 = none ∧
      ("Erro ao executar o script SQL no banco: " ++ e)
        ∈ (criar_conexao_e_popular exec (some s)).2 ∧
      ("DEBUG: O script baixado começou com: " ++ s.take 100 ++ "...")
        ∈ (criar_conexao_e_popular exec (some s)).2 := by
  refine ⟨rfl, fun s e he => ?_⟩
  simp [criar_conexao_e_popular, he]

/-- C8 witness: a concrete failing engine and script. -/
theorem C8_witness :
    criar_conexao_e_popular (fun _ => .error "sem tabela") none = (none, []) ∧
    (criar_conexao_e_popular (fun _ => .error "sem tabela") (some "SELECT 1;")).1 = none ∧
    ("Erro ao executar o script SQL no banco: " ++ "sem tabela")
      ∈ (criar_conexao_e_popular (fun _ => .error "sem tabela") (some "SELECT 1;")).2 ∧
    ("DEBUG: O script baixado começou com: " ++ ("SELECT 1;").take 100 ++ "...")
      ∈ (criar_conexao_e_popular (fun _ => .error "sem tabela") (some "SELECT 1;")).2 := by
  have h := C8_builder (fun _ => .error "sem tabela")
  have h2 := h.2 "SELECT 1;" "sem tabela" rfl
  exact ⟨h.1, h2.1, h2.2.1, h2.2.2⟩

/-- C9: the Query Loader returns the resulting rows on success, and on
failure reports the error and returns an empty dataset instead of
raising. -/
theorem C9_loader (run : Conn → String → Except String (List Row))
    (conn : Conn) (query : String) :
    (∀ df, run conn query = .ok df →
      carregar_dados_no_pandas run conn query = (df, [])) ∧
    (∀ e, run conn query = .error e →
      carregar_dados_no_pandas run conn query =
        ([], ["Erro ao carregar dados no Pandas: " ++ e])) := by
  constructor
  · intro df hdf
    simp [carregar_dados_no_pandas, hdf]
  · intro e he
    simp [carregar_dados_no_pandas, he]

/-- C9 witness: a concrete succeeding run and a concrete failing run. -/
theorem C9_witness :
    carregar_dados_no_pandas (fun _ _ => .ok [row1]) ⟨0⟩ "SELECT" = ([row1], []) ∧
    carregar_dados_no_pandas (fun _ _ => .error "sem conexao") ⟨0⟩ "SELECT" =
      ([], ["Erro ao carregar dados no Pandas: " ++ "sem conexao"]) :=
  ⟨(C9_loader (fun _ _ => .ok [row1]) ⟨0⟩ "SELECT").1 [row1] rfl,
   (C9_loader (fun _ _ => .error "sem conexao") ⟨0⟩ "SELECT").2 "sem conexao" rfl⟩

/-- C10: tratar_dados does not modify its input DataFrame: in the heap
model it only writes to the freshly allocated copy, so the input reference
still holds the raw data afterwards, and the copy holds exactly the pure
cleaning result. -/
theorem C10_no_mutation (s : List (List Row)) (ref : Nat) (df : List Row)
    (h : s.get? ref = some df) (s2 : List (List Row)) (r2 : Nat)
    (h2 : tratar_dados_st s ref = some (s2, r2)) :
    s2.get? ref = some df ∧ s2.get? r2 = tratar_dados df := by
  have hlen : ref < s.length := by
    obtain ⟨hl, _⟩ := List.get?_eq_some.mp h
    exact hl
  have hne : ref ≠ s.length := Nat.ne_of_lt hlen
  have hlt : s.length < (s ++ [df]).length := by
    rw [List.length_append]
    simp
  have hget : ∀ x : List Row, getDf ((s ++ [df]).set s.length x) s.length = x := by
    intro x
    simp only [getDf, List.get?_eq_getElem?]
    rw [List.getElem?_set_self hlt]
    rfl
  have hget1 : getDf (s ++ [df]) s.length = df := by
    simp [getDf, List.get?_eq_getElem?, List.getElem?_concat_length]
  unfold tratar_dados_st at h2
  rw [h] at h2
  simp only [hget1, List.set_set, hget] at h2
  rw [show convertData (recomputeTotal (fillNome (fillCategoria (fillPreco
    (fillDesconto df))))) = tratar_dados df from rfl] at h2
  cases htd : tratar_dados df with
  | none => rw [htd] at h2; cases h2
  | some dfd =>
    rw [htd] at h2
    cases h2
    constructor
    · rw [List.get?_eq_getElem?, List.getElem?_set_ne (Ne.symm hne),
        List.getElem?_append_left hlen, ← List.get?_eq_getElem?]
      exact h
    · rw [List.get?_eq_getElem?, List.getElem?_set_self hlt]

/-- C10 witness: cleaning a one-DataFrame heap leaves the raw DataFrame at
its reference and puts the cleaned rows at the fresh reference. -/
theorem C10_witness :
    ([[row1], [cleaned1]] : List (List Row)).get? 0 = some [row1] ∧
    ([[row1], [cleaned1]] : List (List Row)).get? 1 = tratar_dados [row1] :=
  C10_no_mutation [[row1]] 0 [row1] rfl [[row1], [cleaned1]] 1 rfl

end Vendas
